import Mathlib

/-!
Verification of the captive-portal frontend controller (`frontend/portal.ts`).

Shallow embedding of the client-side portal controller: geolocation
acquisition with a process-wide cache (`lastGeo`), the ad-recommendation
request (`requestAd`), the accept flow (`acceptPortal`, in its two source
variants), the heartbeat loop (`startVisitPingLoop` / `postVisitPing`) and
page initialization (`initPortal`).

Modelling conventions:
* Numbers coming from the browser (coordinates, accuracy) are rationals;
  `Math.round` is Mathlib's `round` (both are floor of `x + 1/2`).
* A network interaction is an explicit `FetchOutcome`: either the fetch
  promise rejects, or a response arrives with a status code and a body that
  either parses to the expected shape or fails to parse (`none`).
* The single-threaded event-loop code is modelled as pure state-passing
  functions on `PortalState`; each suspension point (geolocation callback,
  network completion) takes its outcome as an explicit argument.
* Status strings that embed float formatting (`toFixed`) are carried
  structurally by `StatusMsg`; the accept-status strings, which only embed
  plain strings and integers, are modelled as the literal strings.
-/

namespace Portal

/-- A cached geolocation fix, as stored in the module-level `lastGeo`:
`{latitude, longitude, accuracy_m: Math.round(accuracy)}`. -/
structure GeoFix where
  latitude : ℚ
  longitude : ℚ
  accuracy_m : ℤ
  deriving DecidableEq, Repr

/-- A raw browser position (`pos.coords`), before rounding of accuracy. -/
structure RawPosition where
  latitude : ℚ
  longitude : ℚ
  accuracy : ℚ
  deriving DecidableEq, Repr

/-- The fix built from a raw position in the success callback of
`tryGetGeo`: coordinates verbatim, accuracy rounded. -/
def fixOf (pos : RawPosition) : GeoFix :=
  { latitude := pos.latitude, longitude := pos.longitude,
    accuracy_m := round pos.accuracy }

/-- Outcome of one call to the browser geolocation capability:
the capability is absent (`!navigator.geolocation`), the error callback
fires (carrying `err.code` and `err.message`; permission denied is code 1,
timeout is code 3), or the success callback fires with a position. -/
inductive GeoOutcome where
  | unsupported
  | geoError (code : ℕ) (msg : String)
  | success (pos : RawPosition)
  deriving DecidableEq, Repr

/-- How a promise settles (or fails to). -/
inductive PromiseResult (α : Type) where
  | resolved (v : α)
  | rejected (msg : String)
  deriving DecidableEq, Repr

/-- A heartbeat event kind: `"ping" | "leave"`. -/
inductive HbEvent where
  | ping
  | leave
  deriving DecidableEq, Repr

/-- The heartbeat payload `{latitude, longitude, accuracy_m, event}`. -/
structure HbPayload where
  latitude : Option ℚ
  longitude : Option ℚ
  accuracy_m : Option ℤ
  event : HbEvent
  deriving DecidableEq, Repr

/-- The transport a heartbeat was sent on: `navigator.sendBeacon` or a
keepalive `fetch`. -/
inductive Transport where
  | beacon
  | fetchKeepalive
  deriving DecidableEq, Repr

/-- The module-level mutable state of `portal.js`, together with the
observable effects of the heartbeat machinery:
* `lastGeo` — the process-wide fix cache;
* `visitPingTimer` — the sentinel holding the interval id, `none` initially;
* `nextTimerId` — models `window.setInterval` returning fresh ids;
* `intervalsArmed` — ids of currently armed repeating interval timers;
* `sent` — heartbeat posts issued so far, in order, with their transport;
* `unloadListeners` / `visibilityListeners` — how many `beforeunload` /
  `visibilitychange` observers have been registered. -/
structure PortalState where
  lastGeo : Option GeoFix
  visitPingTimer : Option ℕ
  nextTimerId : ℕ
  intervalsArmed : List ℕ
  sent : List (HbPayload × Transport)
  unloadListeners : ℕ
  visibilityListeners : ℕ
  deriving DecidableEq, Repr

/-- The state at page load: empty cache, no timer, nothing sent. -/
def PortalState.init : PortalState :=
  { lastGeo := none, visitPingTimer := none, nextTimerId := 1,
    intervalsArmed := [], sent := [], unloadListeners := 0,
    visibilityListeners := 0 }

/-- The promise executor of `tryGetGeo`. If the capability is absent it
resolves `null`; the error callback resolves `null`; the success callback
first overwrites `lastGeo` with the new fix and then resolves that cached
value. No path calls `reject`. -/
def tryGetGeo (st : PortalState) (o : GeoOutcome) :
    PortalState × PromiseResult (Option GeoFix) :=
  match o with
  | .unsupported => (st, .resolved none)
  | .geoError _ _ => (st, .resolved none)
  | .success pos =>
      let st' := { st with lastGeo := some (fixOf pos) }
      (st', .resolved st'.lastGeo)

/-- The value a caller of `await tryGetGeo()` sees. Since the executor only
ever calls `resolve` (`tryGetGeo_never_rejects`), the `rejected` fallback
branch is unreachable. -/
def awaitGeo (st : PortalState) (o : GeoOutcome) :
    PortalState × Option GeoFix :=
  match tryGetGeo st o with
  | (st', .resolved v) => (st', v)
  | (st', .rejected _) => (st', none)

/-- The source's `lastGeo ?? (await tryGetGeo())` step, shared by
`postVisitPing` and `acceptPortal`: use the cached fix if present,
otherwise perform one CACHED-policy acquisition. -/
def resolveGeo (st : PortalState) (o : GeoOutcome) :
    PortalState × Option GeoFix :=
  match st.lastGeo with
  | some g => (st, some g)
  | none => awaitGeo st o

/-- The per-call browser environment seen by one `postVisitPing` call:
whether `navigator.sendBeacon` exists, and what the geolocation capability
would answer if the call has to acquire a fix lazily. -/
structure HbEnv where
  beaconAvail : Bool
  geoO : GeoOutcome
  deriving DecidableEq, Repr

/-- Model of `postVisitPing(event)`: resolve a fix
(`lastGeo ?? await tryGetGeo()`), build the payload, then for a `leave`
event with `navigator.sendBeacon` available send via beacon and return
without issuing any fetch; otherwise send via a keepalive fetch. Both
branches post the same payload to the same endpoint. Returns the updated
state and the (payload, transport) pair that was sent. -/
def postVisitPing (st : PortalState) (env : HbEnv) (ev : HbEvent) :
    PortalState × (HbPayload × Transport) :=
  let stgeo := resolveGeo st env.geoO
  let st1 := stgeo.1
  let geo := stgeo.2
  let payload : HbPayload :=
    { latitude := Option.map GeoFix.latitude geo,
      longitude := Option.map GeoFix.longitude geo,
      accuracy_m := Option.map GeoFix.accuracy_m geo,
      event := ev }
  let tr : Transport :=
    if ev = .leave ∧ env.beaconAvail then .beacon else .fetchKeepalive
  ({ st1 with sent := st1.sent ++ [(payload, tr)] }, (payload, tr))

/-- Model of `startVisitPingLoop()`: if the sentinel `visitPingTimer` is non-null,
return immediately. Otherwise send one immediate ping, arm a fresh 60 s
interval timer and store its id in the sentinel, then register one
`beforeunload` and one `visibilitychange` observer. -/
def startVisitPingLoop (st : PortalState) (env : HbEnv) : PortalState :=
  match st.visitPingTimer with
  | some _ => st
  | none =>
      let st1 := (postVisitPing st env .ping).1
      let id := st1.nextTimerId
      { st1 with
        visitPingTimer := some id,
        nextTimerId := id + 1,
        intervalsArmed := st1.intervalsArmed ++ [id],
        unloadListeners := st1.unloadListeners + 1,
        visibilityListeners := st1.visibilityListeners + 1 }

/-- A sequence of calls to `startVisitPingLoop`, one per environment. -/
def startMany (st : PortalState) : List HbEnv → PortalState
  | [] => st
  | e :: es => startMany (startVisitPingLoop st e) es

/-- Browser dispatch of one `visibilitychange`-to-hidden (page-hide) event:
every registered `visibilitychange` observer runs `onLeave`, i.e. one
`postVisitPing("leave")` each. -/
def dispatchHide (st : PortalState) (env : HbEnv) : PortalState :=
  (List.range st.visibilityListeners).foldl
    (fun acc _ => (postVisitPing acc env .leave).1) st

end Portal

namespace Portal

/-- An advertisement as parsed from the ad endpoint's JSON body. -/
structure Ad where
  id : ℤ
  title : String
  image_url : String
  target_url : String
  click_count : ℤ
  deriving DecidableEq, Repr

/-- The outcome of one `fetch`: the promise rejects (network failure), or a
response arrives with an HTTP status and a body that either parses to the
expected shape or fails to parse (`await res.json()` throws). -/
inductive FetchOutcome (β : Type) where
  | netFail (msg : String)
  | resp (status : ℕ) (body : Option β)
  deriving DecidableEq, Repr

/-- Model of `Response.ok`: status in the range 200–299. -/
def okStatus (s : ℕ) : Bool := 200 ≤ s && s < 300

/-- The ad request payload `{latitude, longitude, user_agent, local_time}`. -/
structure AdApiPayload where
  latitude : Option ℚ
  longitude : Option ℚ
  user_agent : String
  local_time : ℕ
  deriving DecidableEq, Repr

/-- The parts of the page touched by `requestAd`: the three panels'
`style.display` values, the ad card's content fields, and the status line.
The status line is carried structurally (see `StatusMsg`). -/
structure AdUi where
  adCardDisplay : String
  emptyDisplay : String
  errorDisplay : String
  adTitle : String
  adImageSrc : String
  adImageAlt : String
  adLinkHref : String
  deriving DecidableEq, Repr

/-- The spec's tri-state classification of an ad response. -/
inductive AdOutcome where
  | Found (a : Ad)
  | Empty
  | Error (msg : String)
  deriving DecidableEq, Repr

/-- Model of `requestAd(latitude, longitude)`: posts the payload, then:
status 204 shows the empty panel; any other non-ok status throws
`HTTP <status>` into the catch; an ok body that parses fills and shows the
ad card; a rejected fetch or a body that fails to parse lands in the catch,
which shows the error panel. Returns the payload sent and the resulting
panel state. -/
def requestAd (ui : AdUi) (latitude longitude : Option ℚ)
    (ua : String) (hour : ℕ) (r : FetchOutcome Ad) : AdApiPayload × AdUi :=
  let payload : AdApiPayload :=
    { latitude := latitude, longitude := longitude,
      user_agent := ua, local_time := hour }
  let onCatch : AdUi :=
    { ui with
      adCardDisplay := "none", emptyDisplay := "none",
      errorDisplay := "block" }
  match r with
  | .netFail _ => (payload, onCatch)
  | .resp status body =>
      if status = 204 then
        (payload, { ui with
          adCardDisplay := "none", emptyDisplay := "block",
          errorDisplay := "none" })
      else if !okStatus status then
        (payload, onCatch)
      else
        match body with
        | none => (payload, onCatch)
        | some data =>
            (payload,
             { ui with
               adTitle := data.title, adImageSrc := data.image_url,
               adImageAlt := data.title, adLinkHref := data.target_url,
               adCardDisplay := "block", emptyDisplay := "none",
               errorDisplay := "none" })

/-- The tri-state outcome `requestAd` lands in, read off the same branch
structure: 204 is Empty, other non-ok statuses are Error, an ok parseable
body is Found, and a rejected fetch or parse failure is Error. -/
def classifyAd (r : FetchOutcome Ad) : AdOutcome :=
  match r with
  | .netFail m => .Error m
  | .resp status body =>
      if status = 204 then .Empty
      else if !okStatus status then .Error ("HTTP " ++ toString status)
      else
        match body with
        | none => .Error ("body parse failure")
        | some data => .Found data

/-- How many of the three panels are displayed (`style.display = "block"`). -/
def panelsShown (ui : AdUi) : ℕ :=
  (if ui.adCardDisplay = "block" then 1 else 0) +
  (if ui.emptyDisplay = "block" then 1 else 0) +
  (if ui.errorDisplay = "block" then 1 else 0)

/-- A venue attribution `{name, category, distance_m}` from the accept
response. -/
structure Venue where
  name : String
  category : String
  distance_m : Option ℤ
  deriving DecidableEq, Repr

/-- The JSON body of an accept response, with each field optionally absent
(`none` models both an absent field and `null`; under JS truthiness both
behave alike in the code's tests `data.ok`, `data.venue`, and
`data.is_authenticated === false`). Carries the fields read by either
source variant. -/
structure AcceptJson where
  ok : Option Bool
  venue : Option Venue
  is_authenticated : Option Bool
  deriving DecidableEq, Repr

/-- The body an accept request is sent with: the canonical variant posts
`{latitude, longitude, accuracy_m}`, the legacy variant posts `{}`. -/
inductive AcceptReqBody where
  | located (latitude longitude : Option ℚ) (accuracy_m : Option ℤ)
  | emptyObj
  deriving DecidableEq, Repr

/-- Observable result of one `acceptPortal()` invocation:
the resulting module state, the final `accept-status` text, the accept
requests this invocation issued, the button's `disabled` value from before
the request is issued until the response settles (nothing touches it
between the assignment at entry and the `finally`), the button's final
`disabled` value, and whether this invocation called
`startVisitPingLoop`. -/
structure AcceptRun where
  state : PortalState
  acceptStatus : String
  requests : List AcceptReqBody
  disabledDuringFetch : Bool
  disabledFinal : Bool
  heartbeatStarted : Bool
  deriving DecidableEq, Repr

/-- The environment one `acceptPortal` call may consult: the geolocation
outcome for its own lazy `tryGetGeo`, and the environment of the immediate
ping that `startVisitPingLoop` sends if the accept succeeds. -/
structure AcceptEnv where
  geoO : GeoOutcome
  hb : HbEnv
  deriving DecidableEq, Repr

/-- The `accept-status` text for a successful join with venue attribution:
`认证成功。归因店铺：<name>（<category>），距离约 <distance_m ?? "?">m`. -/
def venueStatus (v : Venue) : String :=
  "认证成功。归因店铺：" ++ v.name ++ "（" ++ v.category ++ "），距离约 " ++
    (match v.distance_m with
     | some d => toString d
     | none => "?") ++ "m"

/-- The shape every `acceptPortal` run has: the button is disabled at
entry, before the request is issued, and nothing re-enables it until the
`finally`, which always re-enables it; exactly one accept request is
issued. -/
def acceptRunOf (payload : AcceptReqBody) (st2 : PortalState)
    (status : String) (hb : Bool) : AcceptRun :=
  { state := st2, acceptStatus := status, requests := [payload],
    disabledDuringFetch := true, disabledFinal := false,
    heartbeatStarted := hb }

/-- The body the canonical `acceptPortal` posts: the resolved fix's
fields, or nulls. -/
def acceptPayload (st : PortalState) (env : AcceptEnv) : AcceptReqBody :=
  let geo := (resolveGeo st env.geoO).2
  .located (Option.map GeoFix.latitude geo)
    (Option.map GeoFix.longitude geo) (Option.map GeoFix.accuracy_m geo)

/-- Model of `acceptPortal()` (the canonical variant in `portal.js`):
disables the button, resolves a fix (`lastGeo ?? await tryGetGeo()`),
posts `{latitude, longitude, accuracy_m}`, throws on a non-ok status or a
body that fails to parse (both land in the catch), on a truthy `data.ok`
starts the heartbeat loop and reports success (with or without venue
attribution), on a falsy `data.ok` reports a rejected authentication; the
`finally` re-enables the button on every path. -/
def acceptPortal (st : PortalState) (env : AcceptEnv)
    (r : FetchOutcome AcceptJson) : AcceptRun :=
  let st1 := (resolveGeo st env.geoO).1
  let payload := acceptPayload st env
  match r with
  | .netFail _ => acceptRunOf payload st1 ("认证失败，请稍后重试。") false
  | .resp status body =>
      if !okStatus status then
        acceptRunOf payload st1 ("认证失败，请稍后重试。") false
      else
        match body with
        | none => acceptRunOf payload st1 ("认证失败，请稍后重试。") false
        | some data =>
            if data.ok = some true then
              let st2 := startVisitPingLoop st1 env.hb
              match data.venue with
              | some v => acceptRunOf payload st2 (venueStatus v) true
              | none =>
                  acceptRunOf payload st2
                    ("认证成功。但未命中附近店铺（可能未授权定位或距离阈值过小）。") true
            else acceptRunOf payload st1 ("认证失败：返回状态异常。") false

/-- Model of the other `acceptPortal()` (the legacy variant in the unnamed
build artifact): disables the button, posts an empty `{}` body, treats any
non-ok status as a failure with the status code in the message (no throw),
tolerates a body that fails to parse (`data = null`), warns only when
`is_authenticated` is literally `false`, otherwise reports success; it
never starts the heartbeat loop and never consults geolocation. -/
def acceptPortalLegacy (st : PortalState) (r : FetchOutcome AcceptJson) :
    AcceptRun :=
  match r with
  | .netFail _ => acceptRunOf .emptyObj st ("认证失败：网络异常或服务器错误。") false
  | .resp status body =>
      if !okStatus status then
        acceptRunOf .emptyObj st ("认证失败：返回状态 " ++ toString status) false
      else
        match body with
        | some data =>
            if data.is_authenticated = some false then
              acceptRunOf .emptyObj st ("认证未生效，请稍后重试。") false
            else acceptRunOf .emptyObj st ("认证成功，你可以继续访问互联网。") false
        | none => acceptRunOf .emptyObj st ("认证成功，你可以继续访问互联网。") false

/-- DOM capability: a click on a control is delivered to its handler only
when the control is not disabled. -/
def clickDelivered (disabled : Bool) : Bool := !disabled

/-- The status line messages `initPortal` writes; the messages whose text
embeds `toFixed`-formatted floats are carried structurally. -/
inductive StatusMsg where
  | initializing
  | noGeoSupport
  | locating
  | locSuccess (lat lon : ℚ) (acc : ℚ)
  | locFail (code : ℕ) (msg : String)
  deriving DecidableEq, Repr

/-- The observable actions `initPortal` performs, in order. -/
inductive InitAction where
  | bindAcceptClick
  | setStatus (m : StatusMsg)
  | geoRequest
  | geoSettle (o : GeoOutcome)
  | adRequest (latitude longitude : Option ℚ)
  deriving DecidableEq, Repr

/-- Model of `initPortal()`: binds the accept button's click handler, then if
geolocation is unsupported immediately requests an ad with null
coordinates; otherwise issues one FAST-policy `getCurrentPosition`
(`enableHighAccuracy=false, timeout=5000, maximumAge=0`) and, once its
callback settles, requests an ad with the fix's coordinates (success) or
with nulls (error/timeout). The success callback passes the position
straight to `requestAd` and touches no module state — in particular it
never writes `lastGeo`. -/
def initPortal (st : PortalState) (o : GeoOutcome) :
    PortalState × List InitAction :=
  match o with
  | .unsupported =>
      (st, [.bindAcceptClick, .setStatus .initializing,
        .setStatus .noGeoSupport, .adRequest none none])
  | .geoError code msg =>
      (st, [.bindAcceptClick, .setStatus .initializing, .setStatus .locating,
        .geoRequest, .geoSettle (.geoError code msg),
        .setStatus (.locFail code msg), .adRequest none none])
  | .success pos =>
      (st, [.bindAcceptClick, .setStatus .initializing, .setStatus .locating,
        .geoRequest, .geoSettle (.success pos),
        .setStatus (.locSuccess pos.latitude pos.longitude pos.accuracy),
        .adRequest (some pos.latitude) (some pos.longitude)])

/-- Whether an init action is the ad request. -/
def InitAction.isAdRequest : InitAction → Bool
  | .adRequest _ _ => true
  | _ => false

/-- Whether an init action is the settling of the geolocation attempt. -/
def InitAction.isSettle : InitAction → Bool
  | .geoSettle _ => true
  | _ => false

/-- The geolocation attempt settles strictly before the first ad request:
the prefix of the trace preceding the first ad request contains a
`geoSettle` action. -/
def settleBeforeAd (tr : List InitAction) : Prop :=
  (tr.takeWhile (fun a => !a.isAdRequest)).any InitAction.isSettle = true

/-- A substring occurrence: `sub` occurs somewhere inside `s`. -/
def containsStr (s sub : String) : Prop :=
  ∃ a b, s = a ++ (sub ++ b)

end Portal

namespace Portal

theorem startVisitPingLoop_timer_isSome (st : PortalState) (e : HbEnv) :
    (startVisitPingLoop st e).visitPingTimer.isSome := by
  obtain ⟨lg, vt, nt, ia, se, ul, vl⟩ := st
  cases vt <;> rfl

theorem startVisitPingLoop_noop (st : PortalState) (e : HbEnv)
    (h : st.visitPingTimer.isSome) : startVisitPingLoop st e = st := by
  obtain ⟨lg, vt, nt, ia, se, ul, vl⟩ := st
  cases vt with
  | none => exact absurd h (by simp)
  | some k => rfl

theorem startMany_noop (es : List HbEnv) (st : PortalState)
    (h : st.visitPingTimer.isSome) : startMany st es = st := by
  induction es generalizing st with
  | nil => rfl
  | cons e es ih =>
      rw [startMany, startVisitPingLoop_noop st e h]
      exact ih st h

theorem resolveGeo_fields (st : PortalState) (o : GeoOutcome) :
    (resolveGeo st o).1 =
      { st with lastGeo := (resolveGeo st o).1.lastGeo } := by
  obtain ⟨lg, vt, nt, ia, se, ul, vl⟩ := st
  cases lg <;> cases o <;> rfl

/-- C7: `tryGetGeo` never rejects: for every outcome of the underlying
geolocation capability — capability absent, error callback (permission
denied, timeout), or success — its promise resolves, with `null` on every
failure path and the new `GeoFix` on success, so geolocation failure never
raises an error to the caller. -/
theorem tryGetGeo_never_rejects (st : PortalState) (o : GeoOutcome) :
    (tryGetGeo st o).2 =
      PromiseResult.resolved
        (match o with
         | .success pos => some (fixOf pos)
         | _ => none) := by
  cases o <;> rfl

/-- C4 counterexample: the FAST-policy acquisition performed on page
initialization does not overwrite `lastGeo`: after `initPortal` handles a
successful fix, the cache is still empty rather than holding that fix. -/
theorem initPortal_success_does_not_cache :
    (initPortal PortalState.init (.success ⟨1, 2, 3⟩)).1.lastGeo = none ∧
    (initPortal PortalState.init (.success ⟨1, 2, 3⟩)).1.lastGeo ≠
      some (fixOf ⟨1, 2, 3⟩) := by
  refine ⟨rfl, ?_⟩
  intro h
  simp [initPortal, PortalState.init] at h

/-- C4 (amended): every successful CACHED-policy acquisition (`tryGetGeo`)
overwrites the process-wide cache `lastGeo` with the new fix before its
promise resolves (the resolved value is read back from the updated cache),
no failed acquisition modifies the state, and the FAST-policy acquisition
performed by `initPortal` never modifies the module state — in particular
it never writes `lastGeo`. -/
theorem tryGetGeo_cache_discipline (st : PortalState) (o : GeoOutcome) :
    (initPortal st o).1 = st ∧
    (match o with
     | .success pos =>
         (tryGetGeo st o).1.lastGeo = some (fixOf pos) ∧
         (tryGetGeo st o).2 = .resolved ((tryGetGeo st o).1.lastGeo)
     | _ => tryGetGeo st o = (st, .resolved none)) := by
  cases o with
  | unsupported => exact ⟨rfl, rfl⟩
  | geoError code msg => exact ⟨rfl, rfl⟩
  | success pos => exact ⟨rfl, rfl, rfl⟩

/-- C2: `startVisitPingLoop` is idempotent: any call after a first call is
a no-op (the sentinel `visitPingTimer` is set), any number of consecutive
calls from the fresh page state equals a single call, and that single call
arms exactly one repeating interval timer and sends exactly one immediate
ping (over the normal keepalive transport), leaving the sentinel set. -/
theorem startVisitPingLoop_idempotent (st : PortalState) (e e2 : HbEnv)
    (es : List HbEnv) :
    startVisitPingLoop (startVisitPingLoop st e) e2 = startVisitPingLoop st e ∧
    startMany PortalState.init (e :: es) =
      startVisitPingLoop PortalState.init e ∧
    (startVisitPingLoop PortalState.init e).intervalsArmed = [1] ∧
    (∃ p, (startVisitPingLoop PortalState.init e).sent =
        [(p, Transport.fetchKeepalive)] ∧ p.event = HbEvent.ping) ∧
    (startVisitPingLoop PortalState.init e).visitPingTimer = some 1 := by
  refine ⟨startVisitPingLoop_noop _ e2 (startVisitPingLoop_timer_isSome st e),
    ?_, ?_, ?_, ?_⟩
  · rw [startMany]
    exact startMany_noop es _ (startVisitPingLoop_timer_isSome _ e)
  · obtain ⟨b, g⟩ := e; cases g <;> rfl
  · obtain ⟨b, g⟩ := e; cases g <;> exact ⟨_, rfl, rfl⟩
  · obtain ⟨b, g⟩ := e; cases g <;> rfl

theorem postVisitPing_state (st : PortalState) (env : HbEnv) (ev : HbEvent) :
    (postVisitPing st env ev).1 =
      { st with
        lastGeo := (resolveGeo st env.geoO).1.lastGeo,
        sent := st.sent ++ [(postVisitPing st env ev).2] } := by
  obtain ⟨lg, vt, nt, ia, se, ul, vl⟩ := st
  obtain ⟨b, g⟩ := env
  cases lg <;> cases g <;> rfl

theorem startVisitPingLoop_init_listeners (e : HbEnv) :
    (startVisitPingLoop PortalState.init e).visibilityListeners = 1 ∧
    (startVisitPingLoop PortalState.init e).unloadListeners = 1 := by
  obtain ⟨b, g⟩ := e; cases g <;> exact ⟨rfl, rfl⟩

/-- C5: `postVisitPing` selects the transport by event kind — beacon
exactly for a Leave event with `sendBeacon` available, a keepalive fetch
otherwise — each call issues exactly one send, the payload is independent
of which transport is available and carries the event; and after the
heartbeat loop has started, one page-hide dispatch sends exactly one Leave
post, which uses the beacon transport exactly when it is available. -/
theorem postVisitPing_transport (st : PortalState) (env : HbEnv)
    (ev : HbEvent) (e2 : HbEnv) :
    ((postVisitPing st env ev).2.2 = Transport.beacon ↔
      (ev = HbEvent.leave ∧ env.beaconAvail = true)) ∧
    (postVisitPing st env ev).1.sent =
      st.sent ++ [(postVisitPing st env ev).2] ∧
    (postVisitPing st ⟨true, env.geoO⟩ ev).2.1 =
      (postVisitPing st ⟨false, env.geoO⟩ ev).2.1 ∧
    (postVisitPing st env ev).2.1.event = ev ∧
    (dispatchHide (startVisitPingLoop PortalState.init env) e2).sent =
      (startVisitPingLoop PortalState.init env).sent ++
        [(postVisitPing (startVisitPingLoop PortalState.init env) e2 .leave).2] ∧
    ((postVisitPing (startVisitPingLoop PortalState.init env) e2 .leave).2.2 =
        Transport.beacon ↔ e2.beaconAvail = true) := by
  obtain ⟨b, g⟩ := env
  refine ⟨?_, ?_, rfl, rfl, ?_, ?_⟩
  · cases ev <;> cases b <;> simp [postVisitPing]
  · rw [postVisitPing_state]
  · rw [dispatchHide, (startVisitPingLoop_init_listeners ⟨b, g⟩).1]
    have hr : List.range 1 = [0] := rfl
    rw [hr, List.foldl_cons, List.foldl_nil, postVisitPing_state]
  · obtain ⟨b2, g2⟩ := e2
    cases b2 <;> simp [postVisitPing]

/-- C6: per initialization exactly one initial ad request is issued; it is
issued only after the geolocation attempt (when one is made) has settled —
success, error, or timeout — never in parallel with an unresolved fix; and
when geolocation is unsupported or the attempt errors or times out, the ad
request proceeds with null coordinates. -/
theorem initPortal_ad_after_settle (st : PortalState) (o : GeoOutcome) :
    (initPortal st o).2.countP InitAction.isAdRequest = 1 ∧
    (InitAction.geoRequest ∈ (initPortal st o).2 →
      settleBeforeAd (initPortal st o).2) ∧
    (match o with
     | .success pos =>
         InitAction.adRequest (some pos.latitude) (some pos.longitude) ∈
           (initPortal st o).2
     | _ => InitAction.adRequest none none ∈ (initPortal st o).2) := by
  cases o with
  | unsupported =>
      exact ⟨rfl, fun h => absurd h (by simp [initPortal]), by simp [initPortal]⟩
  | geoError code msg => exact ⟨rfl, fun _ => rfl, by simp [initPortal]⟩
  | success pos => exact ⟨rfl, fun _ => rfl, by simp [initPortal]⟩

/-- Witness for C6 at a concrete timed-out geolocation attempt. -/
theorem initPortal_ad_after_settle_witness :
    settleBeforeAd (initPortal PortalState.init (.geoError 3 ("timeout"))).2 :=
  (initPortal_ad_after_settle PortalState.init
    (.geoError 3 ("timeout"))).2.1 (by simp [initPortal])

/-- C1: `requestAd` classifies every response into exactly one of
{Found, Empty, Error} — HTTP 204 yields Empty, any other non-2xx status
yields Error, a 2xx with parseable body yields Found, any network or parse
failure yields Error — and after the call exactly one (hence at most one)
of the ad-card / empty / error panels is displayed, the one matching the
classification. -/
theorem requestAd_tri_state (ui : AdUi) (lat lon : Option ℚ) (ua : String)
    (hour : ℕ) (r : FetchOutcome Ad) :
    panelsShown (requestAd ui lat lon ua hour r).2 = 1 ∧
    ((requestAd ui lat lon ua hour r).2.adCardDisplay = "block" ↔
      ∃ a, classifyAd r = .Found a) ∧
    ((requestAd ui lat lon ua hour r).2.emptyDisplay = "block" ↔
      classifyAd r = .Empty) ∧
    ((requestAd ui lat lon ua hour r).2.errorDisplay = "block" ↔
      ∃ m, classifyAd r = .Error m) ∧
    (∀ b, classifyAd (.resp 204 b) = .Empty) ∧
    (∀ s b, okStatus s = false → ∃ m, classifyAd (.resp s b) = .Error m) ∧
    (∀ s a, okStatus s = true → s ≠ 204 →
      classifyAd (.resp s (some a)) = .Found a) ∧
    (∀ s, okStatus s = true → s ≠ 204 →
      ∃ m, classifyAd (.resp s none) = .Error m) ∧
    (∀ m, classifyAd (.netFail m) = .Error m) := by
  have h204ok : okStatus 204 = true := rfl
  have hcls : ∀ s b, okStatus s = false → ∃ m, classifyAd (.resp s b) = .Error m := by
    intro s b h
    have hne : s ≠ 204 := fun he => by rw [he, h204ok] at h; cases h
    exact ⟨"HTTP " ++ toString s, by simp [classifyAd, hne, h]⟩
  have hfound : ∀ s a, okStatus s = true → s ≠ 204 →
      classifyAd (.resp s (some a)) = .Found a := by
    intro s a h hne
    simp [classifyAd, hne, h]
  have hparse : ∀ s, okStatus s = true → s ≠ 204 →
      ∃ m, classifyAd (.resp s none) = .Error m := by
    intro s h hne
    exact ⟨"body parse failure", by simp [classifyAd, hne, h]⟩
  have hui : ∀ r' : FetchOutcome Ad,
      panelsShown (requestAd ui lat lon ua hour r').2 = 1 ∧
      ((requestAd ui lat lon ua hour r').2.adCardDisplay = "block" ↔
        ∃ a, classifyAd r' = .Found a) ∧
      ((requestAd ui lat lon ua hour r').2.emptyDisplay = "block" ↔
        classifyAd r' = .Empty) ∧
      ((requestAd ui lat lon ua hour r').2.errorDisplay = "block" ↔
        ∃ m, classifyAd r' = .Error m) := by
    intro r'
    rcases r' with m | ⟨s, body⟩
    · simp [requestAd, classifyAd, panelsShown]
    · by_cases h204 : s = 204
      · subst h204
        rcases body with _ | a <;> simp [requestAd, classifyAd, panelsShown]
      · cases hok : okStatus s <;> rcases body with _ | a <;>
          simp [requestAd, classifyAd, panelsShown, h204, hok]
  exact ⟨(hui r).1, (hui r).2.1, (hui r).2.2.1, (hui r).2.2.2,
    fun b => rfl, hcls, hfound, hparse, fun m => rfl⟩

/-- Witness for C1 at concrete responses: a 204 displays exactly one panel,
and a 500 classifies as an error. -/
theorem requestAd_tri_state_witness :
    panelsShown (requestAd ⟨"none", "none", "none", "", "", "", ""⟩
      none none ("ua") 12 (.resp 204 none)).2 = 1 ∧
    ∃ m, classifyAd (.resp 500 none) = AdOutcome.Error m := by
  refine ⟨(requestAd_tri_state ⟨"none", "none", "none", "", "", "", ""⟩
    none none ("ua") 12 (.resp 204 none)).1, ?_⟩
  exact (requestAd_tri_state ⟨"none", "none", "none", "", "", "", ""⟩
    none none ("ua") 12 (.resp 204 none)).2.2.2.2.2.1 500 none (by decide)

theorem acceptPortal_ok_eq (st : PortalState) (env : AcceptEnv) (s : ℕ)
    (j : AcceptJson) (hs : okStatus s = true) (hok : j.ok = some true) :
    acceptPortal st env (.resp s (some j)) =
      acceptRunOf (acceptPayload st env)
        (startVisitPingLoop (resolveGeo st env.geoO).1 env.hb)
        (match j.venue with
         | some v => venueStatus v
         | none => "认证成功。但未命中附近店铺（可能未授权定位或距离阈值过小）。") true := by
  unfold acceptPortal
  dsimp only
  rw [hs]
  simp only [Bool.not_true, Bool.false_eq_true, if_false, hok, if_pos rfl]
  cases j.venue <;> rfl

/-- C3: a 2xx accept response with `ok: true` starts the heartbeat loop
regardless of whether a venue is present; with venue
`{name: "Cafe X", category: "food", distance_m: 12}` the status text
contains "Cafe X" and "12m", and with `venue: null` the status is the
distinct successful-but-unattributed message (still a success path, and
the heartbeat still starts). -/
theorem acceptPortal_ok_attribution (st : PortalState) (env : AcceptEnv)
    (s : ℕ) (venue : Option Venue) (hs : okStatus s = true) :
    (acceptPortal st env (.resp s (some ⟨some true, venue, none⟩))).heartbeatStarted
        = true ∧
    (acceptPortal st env
        (.resp s (some ⟨some true, venue, none⟩))).state.visitPingTimer.isSome ∧
    (venue = some ⟨"Cafe X", "food", some 12⟩ →
      containsStr (acceptPortal st env
          (.resp s (some ⟨some true, venue, none⟩))).acceptStatus ("Cafe X") ∧
      containsStr (acceptPortal st env
          (.resp s (some ⟨some true, venue, none⟩))).acceptStatus ("12m")) ∧
    (venue = none →
      (acceptPortal st env (.resp s (some ⟨some true, venue, none⟩))).acceptStatus =
        "认证成功。但未命中附近店铺（可能未授权定位或距离阈值过小）。") := by
  rw [acceptPortal_ok_eq st env s ⟨some true, venue, none⟩ hs rfl]
  refine ⟨rfl, startVisitPingLoop_timer_isSome _ _, ?_, ?_⟩
  · rintro rfl
    constructor
    · exact ⟨"认证成功。归因店铺：", "（food），距离约 12m", by rfl⟩
    · exact ⟨"认证成功。归因店铺：Cafe X（food），距离约 ", "", by rfl⟩
  · rintro rfl
    rfl

/-- Witness for C3 at a concrete 200 response. -/
theorem acceptPortal_ok_attribution_witness :
    okStatus 200 = true ∧
    (acceptPortal PortalState.init ⟨.unsupported, ⟨false, .unsupported⟩⟩
      (.resp 200 (some ⟨some true, some ⟨"Cafe X", "food", some 12⟩, none⟩))).heartbeatStarted
        = true ∧
    containsStr (acceptPortal PortalState.init ⟨.unsupported, ⟨false, .unsupported⟩⟩
      (.resp 200 (some ⟨some true, some ⟨"Cafe X", "food", some 12⟩, none⟩))).acceptStatus
      ("Cafe X") := by
  refine ⟨rfl, (acceptPortal_ok_attribution PortalState.init
    ⟨.unsupported, ⟨false, .unsupported⟩⟩ 200
    (some ⟨"Cafe X", "food", some 12⟩) rfl).1, ?_⟩
  exact ((acceptPortal_ok_attribution PortalState.init
    ⟨.unsupported, ⟨false, .unsupported⟩⟩ 200
    (some ⟨"Cafe X", "food", some 12⟩) rfl).2.2.1 rfl).1

theorem acceptPortal_notOk_eq (st : PortalState) (env : AcceptEnv) (s : ℕ)
    (body : Option AcceptJson) (hs : okStatus s = false) :
    acceptPortal st env (.resp s body) =
      acceptRunOf (acceptPayload st env) (resolveGeo st env.geoO).1
        ("认证失败，请稍后重试。") false := by
  unfold acceptPortal
  dsimp only
  rw [hs]
  rfl

theorem acceptPortal_parseFail_eq (st : PortalState) (env : AcceptEnv)
    (s : ℕ) (hs : okStatus s = true) :
    acceptPortal st env (.resp s none) =
      acceptRunOf (acceptPayload st env) (resolveGeo st env.geoO).1
        ("认证失败，请稍后重试。") false := by
  unfold acceptPortal
  dsimp only
  rw [hs]
  rfl

theorem acceptPortal_notTrue_eq (st : PortalState) (env : AcceptEnv) (s : ℕ)
    (data : AcceptJson) (hs : okStatus s = true)
    (hok : ¬data.ok = some true) :
    acceptPortal st env (.resp s (some data)) =
      acceptRunOf (acceptPayload st env) (resolveGeo st env.geoO).1
        ("认证失败：返回状态异常。") false := by
  unfold acceptPortal
  dsimp only
  rw [hs, if_neg hok]
  rfl

theorem acceptPortal_shape (st : PortalState) (env : AcceptEnv)
    (r : FetchOutcome AcceptJson) :
    ∃ st2 stat hb,
      acceptPortal st env r = acceptRunOf (acceptPayload st env) st2 stat hb := by
  rcases r with m | ⟨s, body⟩
  · exact ⟨_, _, _, rfl⟩
  · cases hs : okStatus s with
    | false => exact ⟨_, _, _, acceptPortal_notOk_eq st env s body hs⟩
    | true =>
        rcases body with _ | data
        · exact ⟨_, _, _, acceptPortal_parseFail_eq st env s hs⟩
        · by_cases hok : data.ok = some true
          · exact ⟨_, _, _, acceptPortal_ok_eq st env s data hs hok⟩
          · exact ⟨_, _, _, acceptPortal_notTrue_eq st env s data hs hok⟩

/-- C8: `acceptPortal` maintains mutual exclusion via the disabled
control: the button is disabled before the request is issued and stays
disabled while the call is pending — so a click arriving during that
window is not delivered and cannot issue a second request — exactly one
accept request is issued per invocation, and the button is re-enabled
after every outcome (success, rejection, or thrown error), with no
permanent lockout. -/
theorem acceptPortal_mutual_exclusion (st : PortalState) (env : AcceptEnv)
    (r : FetchOutcome AcceptJson) :
    (acceptPortal st env r).disabledDuringFetch = true ∧
    (acceptPortal st env r).disabledFinal = false ∧
    (acceptPortal st env r).requests = [acceptPayload st env] ∧
    clickDelivered (acceptPortal st env r).disabledDuringFetch = false := by
  obtain ⟨st2, stat, hb, heq⟩ := acceptPortal_shape st env r
  rw [heq]
  exact ⟨rfl, rfl, rfl, rfl⟩

/-- An accept response on which `acceptPortal` does not succeed: the fetch
rejects, the status is non-2xx, the body fails to parse, or the parsed
body's `ok` is not `true`. -/
def acceptFails : FetchOutcome AcceptJson → Bool
  | .netFail _ => true
  | .resp s body =>
      !okStatus s ||
        (match body with
         | none => true
         | some data =>
             match data.ok with
             | some true => false
             | _ => true)

theorem acceptPortal_fail_eq (st : PortalState) (env : AcceptEnv)
    (r : FetchOutcome AcceptJson) (h : acceptFails r = true) :
    ∃ stat, acceptPortal st env r =
      acceptRunOf (acceptPayload st env) (resolveGeo st env.geoO).1 stat false := by
  rcases r with m | ⟨s, body⟩
  · exact ⟨_, rfl⟩
  · cases hs : okStatus s with
    | false => exact ⟨_, acceptPortal_notOk_eq st env s body hs⟩
    | true =>
        rcases body with _ | data
        · exact ⟨_, acceptPortal_parseFail_eq st env s hs⟩
        · have hok : ¬data.ok = some true := by
            intro he
            simp [acceptFails, hs, he] at h
          exact ⟨_, acceptPortal_notTrue_eq st env s data hs hok⟩

/-- C10: atomicity of accept failure: whenever the accept call does not
succeed (thrown transport error, non-2xx status, unparseable body, or
`ok` false), the heartbeat machinery is untouched by that invocation:
`startVisitPingLoop` is not called, the sentinel `visitPingTimer` is
unchanged, no ping is sent, no interval is armed, and no hide/unload
observers are registered. -/
theorem acceptPortal_failure_atomic (st : PortalState) (env : AcceptEnv)
    (r : FetchOutcome AcceptJson) (h : acceptFails r = true) :
    (acceptPortal st env r).heartbeatStarted = false ∧
    (acceptPortal st env r).state.visitPingTimer = st.visitPingTimer ∧
    (acceptPortal st env r).state.sent = st.sent ∧
    (acceptPortal st env r).state.intervalsArmed = st.intervalsArmed ∧
    (acceptPortal st env r).state.unloadListeners = st.unloadListeners ∧
    (acceptPortal st env r).state.visibilityListeners = st.visibilityListeners := by
  obtain ⟨stat, heq⟩ := acceptPortal_fail_eq st env r h
  rw [heq, resolveGeo_fields st env.geoO]
  exact ⟨rfl, rfl, rfl, rfl, rfl, rfl⟩

/-- Witness for C10 at a concrete 500 response from the fresh state. -/
theorem acceptPortal_failure_atomic_witness :
    acceptFails (.resp 500 none) = true ∧
    (acceptPortal PortalState.init ⟨.unsupported, ⟨false, .unsupported⟩⟩
      (.resp 500 none)).state.sent = PortalState.init.sent := by
  exact ⟨rfl, (acceptPortal_failure_atomic PortalState.init
    ⟨.unsupported, ⟨false, .unsupported⟩⟩ (.resp 500 none) rfl).2.2.1⟩

/-- C9: the two `acceptPortal` variants in the source are not behaviorally
equivalent: on the same 2xx-with-unparseable-body response, the same
non-2xx response, and the same body lacking `ok`, they produce different
status texts; on an `ok: true` body the canonical variant starts the
heartbeat loop while the legacy one never does; and they post different
request bodies. -/
theorem acceptPortal_variants_diverge :
    (acceptPortal PortalState.init ⟨.unsupported, ⟨false, .unsupported⟩⟩
        (.resp 200 none)).acceptStatus ≠
      (acceptPortalLegacy PortalState.init (.resp 200 none)).acceptStatus ∧
    (acceptPortal PortalState.init ⟨.unsupported, ⟨false, .unsupported⟩⟩
        (.resp 500 none)).acceptStatus ≠
      (acceptPortalLegacy PortalState.init (.resp 500 none)).acceptStatus ∧
    (acceptPortal PortalState.init ⟨.unsupported, ⟨false, .unsupported⟩⟩
        (.resp 200 (some ⟨none, none, none⟩))).acceptStatus ≠
      (acceptPortalLegacy PortalState.init
        (.resp 200 (some ⟨none, none, none⟩))).acceptStatus ∧
    (acceptPortal PortalState.init ⟨.unsupported, ⟨false, .unsupported⟩⟩
        (.resp 200 (some ⟨some true, none, none⟩))).heartbeatStarted = true ∧
    (acceptPortalLegacy PortalState.init
        (.resp 200 (some ⟨some true, none, none⟩))).heartbeatStarted = false ∧
    (acceptPortal PortalState.init ⟨.unsupported, ⟨false, .unsupported⟩⟩
        (.resp 200 none)).requests ≠
      (acceptPortalLegacy PortalState.init (.resp 200 none)).requests := by
  exact ⟨by decide, by decide, by decide, rfl, rfl, by decide⟩

end Portal

